import Mathlib

/-!
Verification of the `synscanMotors` motor-control layer of pysynscan
(`src/synscanMotors.py`): a shallow embedding of the status decoder,
motion-mode encoder, unit conversions and the parameter/current-value
fetch logic, together with theorems settling the specification's claims.
-/

namespace Synscan

/-- The decoded axis status returned by `decode_status`
(`synscanMotors.py` lines 168-176): one Boolean per dictionary key the
Python code fills in. -/
structure Status where
  Tracking : Bool
  CCW : Bool
  FastSpeed : Bool
  Stopped : Bool
  Blocked : Bool
  InitDone : Bool
  LevelSwitchOn : Bool
deriving DecidableEq, Repr

/-- `int(c, 16)` on a single character: the value of one hex digit,
`none` when the character is not a hex digit (Python raises
`ValueError` there). -/
def hexDigitVal (c : Char) : Option Nat :=
  if '0' ≤ c ∧ c ≤ '9' then some (c.toNat - '0'.toNat)
  else if 'a' ≤ c ∧ c ≤ 'f' then some (c.toNat - 'a'.toNat + 10)
  else if 'A' ≤ c ∧ c ≤ 'F' then some (c.toNat - 'A'.toNat + 10)
  else none

/-- `decode_status` (`synscanMotors.py` lines 146-176): reads the first
three characters of the string as hex digits A, B, C (`hexstring[i]`
raises `IndexError` when the string is shorter than 3, and characters
beyond index 2 are never touched), then fills the status dictionary:
`Tracking = bool(A & 0x01)`, `CCW = bool((A & 0x02) >> 1)`,
`FastSpeed = bool((A & 0x04) >> 2)`, `Stopped = not (B & 0x01)`,
`Blocked = bool((B & 0x02) >> 1)`, `InitDone = not (C & 0x01)`,
`LevelSwitchOn = bool((B & 0x02) >> 1)`.  Failure (IndexError or
ValueError) is modelled as `none`. -/
def decode_status (hexstring : String) : Option Status :=
  match hexstring.data with
  | c0 :: c1 :: c2 :: _ =>
    match hexDigitVal c0, hexDigitVal c1, hexDigitVal c2 with
    | some A, some B, some C =>
      some { Tracking := A &&& 0x01 != 0
           , CCW := (A &&& 0x02) >>> 1 != 0
           , FastSpeed := (A &&& 0x04) >>> 2 != 0
           , Stopped := !(B &&& 0x01 != 0)
           , Blocked := (B &&& 0x02) >>> 1 != 0
           , InitDone := !(C &&& 0x01 != 0)
           , LevelSwitchOn := (B &&& 0x02) >>> 1 != 0 }
    | _, _, _ => none
  | _ => none

/-- A message handed to `send_cmd`: command letter, axis, value and the
explicit hex-digit count. -/
structure SentMsg where
  cmd : Char
  axis : Nat
  value : Nat
  ndigits : Nat
deriving DecidableEq, Repr

/-- The mode byte computed by `set_motion_mode` (`synscanMotors.py`
lines 198-208): `speedBit` is `0x0` for fast / `0x1` for slow when
tracking, and `0x1` for fast / `0x0` for slow otherwise; the value is
`(Tracking & 0x01) | (speedBit << 1) | ((CW & 0x01) << 7)`. -/
def set_motion_mode_value (Tracking fastSpeed CW : Bool) : Nat :=
  let speedBit : Nat :=
    if Tracking then (if fastSpeed then 0x0 else 0x1)
    else (if fastSpeed then 0x1 else 0x0)
  ((if Tracking then 1 else 0) &&& 0x01) ||| (speedBit <<< 1) |||
    (((if CW then 1 else 0) &&& 0x01) <<< 7)

/-- The message `set_motion_mode` transmits (`synscanMotors.py`
line 210): command 'G' with the mode byte, as 2 hex digits. -/
def set_motion_mode_sent (axis : Nat) (Tracking fastSpeed CW : Bool) :
    SentMsg :=
  { cmd := 'G', axis := axis
  , value := set_motion_mode_value Tracking fastSpeed CW, ndigits := 2 }

/-- The per-axis entries of `self.params` that the unit conversions
read (`countsPerRevolution` and `TimerInterruptFreq`), as exact
rationals. -/
structure AxisParams where
  countsPerRevolution : ℚ
  TimerInterruptFreq : ℚ

/-- `degrees2counts` (`synscanMotors.py` lines 69-73):
`degrees * CPR / 360` with `CPR = self.params[axis]['countsPerRevolution']`. -/
def degrees2counts (P : Nat → AxisParams) (axis : Nat) (degrees : ℚ) : ℚ :=
  degrees * (P axis).countsPerRevolution / 360

/-- `counts2degrees` (`synscanMotors.py` lines 75-79):
`counts * 360 / CPR`. -/
def counts2degrees (P : Nat → AxisParams) (axis : Nat) (counts : ℚ) : ℚ :=
  counts * 360 / (P axis).countsPerRevolution

/-- `T1preset` (`synscanMotors.py` lines 81-85):
`TMR_Freq / countsPerSecond` where
`countsPerSecond = degrees2counts(axis, degreesPerSecond)`; Python
raises `ZeroDivisionError` when `countsPerSecond` is zero, modelled as
`none`. -/
def T1preset (P : Nat → AxisParams) (axis : Nat)
    (degreesPerSecond : ℚ) : Option ℚ :=
  let countsPerSecond := degrees2counts P axis degreesPerSecond
  if countsPerSecond = 0 then none
  else some ((P axis).TimerInterruptFreq / countsPerSecond)

/-- A raw reply from the transport collaborator `send_cmd`: an integer
for numeric queries, or the raw 3-hex-digit string for the status
query. -/
inductive Resp where
  | num (n : Int)
  | raw (s : String)
deriving DecidableEq, Repr

/-- The transport collaborator: per axis and command letter, either a
reply or a communication failure (Python `NameError` raised by
`send_cmd`). -/
def Oracle : Type := Nat → Char → Except Unit Resp

/-- A value stored in the dictionary `get_current_values` returns: an
integer, an untouched raw reply, or a decoded status. -/
inductive Val where
  | num (n : Int)
  | raw (s : String)
  | status (st : Status)
deriving DecidableEq, Repr

/-- An untouched reply kept as-is in the result dictionary. -/
def respToVal : Resp → Val
  | Resp.num n => Val.num n
  | Resp.raw s => Val.raw s

/-- The inner loop of `get_values` (`synscanMotors.py` lines 97-102)
for one axis: issue `send_cmd(cmd, axis)` for each entry of the
parameter dictionary in order, stopping at the first failure (the
Python code catches the `NameError` and re-raises
`NameError('getValuesError')`). -/
def get_axis_values (O : Oracle) (axis : Nat) :
    List (String × Char) → Except Unit (List (String × Resp))
  | [] => Except.ok []
  | (p, c) :: rest =>
    match O axis c with
    | Except.error e => Except.error e
    | Except.ok r =>
      match get_axis_values O axis rest with
      | Except.error e => Except.error e
      | Except.ok tail => Except.ok ((p, r) :: tail)

/-- `get_values` (`synscanMotors.py` lines 88-103): run the parameter
dictionary over `axis in range(1, 3)`, i.e. axes 1 then 2, returning a
per-axis dictionary or the propagated failure. -/
def get_values (O : Oracle) (dict : List (String × Char)) :
    Except Unit (List (Nat × List (String × Resp))) :=
  match get_axis_values O 1 dict with
  | Except.error e => Except.error e
  | Except.ok a1 =>
    match get_axis_values O 2 dict with
    | Except.error e => Except.error e
    | Except.ok a2 => Except.ok [(1, a1), (2, a2)]

/-- The parameter dictionary of `get_parameters` (`synscanMotors.py`
lines 111-115), in Python insertion order. -/
def parameterDictMain : List (String × Char) :=
  [("countsPerRevolution", 'a'), ("TimerInterruptFreq", 'b'),
   ("StepPeriod", 'i'), ("MotorBoardVersion", 'e')]

/-- `get_parameters` (`synscanMotors.py` lines 105-124): fetch the main
parameter dictionary via `get_values`; a failure is re-raised as
`NameError('getParametersError')` (the `return {}` after the `raise` is
dead code). -/
def get_parameters (O : Oracle) :
    Except Unit (List (Nat × List (String × Resp))) :=
  match get_values O parameterDictMain with
  | Except.error _ => Except.error ()
  | Except.ok params => Except.ok params

/-- The parameter dictionary of `get_current_values`
(`synscanMotors.py` lines 128-132), in Python insertion order. -/
def parameterDictCurrent : List (String × Char) :=
  [("GotoTarget", 'h'), ("Position", 'j'), ("StepPeriod", 'i'),
   ("Status", 'f')]

/-- Post-processing of one entry of the `get_current_values` result
(`synscanMotors.py` lines 138-143): `GotoTarget` and `Position` have
0x800000 subtracted (a non-integer reply would raise a `TypeError`,
modelled as an error), `Status` is decoded with `decode_status` (which
needs the raw string; failure propagates, as this happens outside the
`try` block), and any other entry is kept untouched. -/
def processEntry : String × Resp → Except Unit (String × Val)
  | (name, r) =>
    if name = "GotoTarget" ∨ name = "Position" then
      match r with
      | Resp.num n => Except.ok (name, Val.num (n - 0x800000))
      | Resp.raw _ => Except.error ()
    else if name = "Status" then
      match r with
      | Resp.raw s =>
        match decode_status s with
        | some st => Except.ok (name, Val.status st)
        | none => Except.error ()
      | Resp.num _ => Except.error ()
    else Except.ok (name, respToVal r)

/-- Post-processing of one axis dictionary of `get_current_values`. -/
def processAxis : List (String × Resp) → Except Unit (List (String × Val))
  | [] => Except.ok []
  | e :: rest =>
    match processEntry e with
    | Except.error u => Except.error u
    | Except.ok v =>
      match processAxis rest with
      | Except.error u => Except.error u
      | Except.ok tail => Except.ok (v :: tail)

/-- Post-processing of the whole `get_current_values` result. -/
def processAll :
    List (Nat × List (String × Resp)) →
      Except Unit (List (Nat × List (String × Val)))
  | [] => Except.ok []
  | (ax, l) :: rest =>
    match processAxis l with
    | Except.error u => Except.error u
    | Except.ok l2 =>
      match processAll rest with
      | Except.error u => Except.error u
      | Except.ok tail => Except.ok ((ax, l2) :: tail)

/-- `get_current_values` (`synscanMotors.py` lines 126-144): fetch the
current-value dictionary; on a transport failure return the empty
dictionary (`return {}` in the `except` clause); otherwise apply the
offset correction to `GotoTarget` and `Position` of both axes and
decode both `Status` fields. -/
def get_current_values (O : Oracle) :
    Except Unit (List (Nat × List (String × Val))) :=
  match get_values O parameterDictCurrent with
  | Except.error _ => Except.ok []
  | Except.ok params => processAll params

/-- `get_axis_pos` (`synscanMotors.py` lines 224-228):
`send_cmd('j', axis) - 0x800000`; a transport failure propagates, and a
non-integer reply would raise a `TypeError`. -/
def get_axis_pos (O : Oracle) (axis : Nat) : Except Unit Int :=
  match O axis 'j' with
  | Except.error e => Except.error e
  | Except.ok (Resp.num n) => Except.ok (n - 0x800000)
  | Except.ok (Resp.raw _) => Except.error ()

/-- The call `set_goto_target` makes (`synscanMotors.py` line 233):
`send_cmd('S', axis, target + 0x800000)` — command letter, axis and
transmitted value. -/
def set_goto_target_sent (axis : Nat) (target : Int) : Char × Nat × Int :=
  ('S', axis, target + 0x800000)

/-- A transport collaborator that fails on every call. -/
def oracleFail : Oracle := fun _ _ => Except.error ()

/-- A transport collaborator that answers every query: the status query
gets the raw string "000", the goto-target and position queries get
values biased by 0x800000, anything else gets 42. -/
def oracleDemo : Oracle := fun _ c =>
  if c = 'f' then Except.ok (Resp.raw "000")
  else if c = 'h' then Except.ok (Resp.num 0x800010)
  else if c = 'j' then Except.ok (Resp.num 0x800001)
  else Except.ok (Resp.num 42)

/-- The status structure decoded from "000". -/
def statusZeros : Status :=
  { Tracking := false, CCW := false, FastSpeed := false, Stopped := true
  , Blocked := false, InitDone := true, LevelSwitchOn := false }

/-- Extracting bit `i` by masking with `2 ^ i` and shifting agrees with
`Nat.testBit`. -/
lemma and_pow_shift_eq_testBit (n i : Nat) :
    ((n &&& 2 ^ i) >>> i != 0) = n.testBit i := by
  rw [Nat.and_two_pow]
  cases h : n.testBit i
  · simp
  · simp [Nat.shiftRight_eq_div_pow, Nat.div_self (Nat.two_pow_pos i)]

lemma and_one_eq_testBit (n : Nat) : (n &&& 1 != 0) = n.testBit 0 := by
  have h := and_pow_shift_eq_testBit n 0
  simpa using h

lemma and_two_shift_eq_testBit (n : Nat) :
    ((n &&& 2) >>> 1 != 0) = n.testBit 1 := by
  have h := and_pow_shift_eq_testBit n 1
  simpa using h

lemma and_four_shift_eq_testBit (n : Nat) :
    ((n &&& 4) >>> 2 != 0) = n.testBit 2 := by
  have h := and_pow_shift_eq_testBit n 2
  simpa using h

lemma nat_beq_eq_decide (a b : Nat) : (a == b) = decide (a = b) := by
  by_cases h : a = b <;> simp [h]

/-- A successful run of the per-axis loop over a 4-entry parameter
dictionary yields exactly one reply per entry, in order. -/
lemma get_axis_values_four {O : Oracle} {ax : Nat} {n1 n2 n3 n4 : String}
    {c1 c2 c3 c4 : Char} {l : List (String × Resp)}
    (h : get_axis_values O ax [(n1, c1), (n2, c2), (n3, c3), (n4, c4)] =
      Except.ok l) :
    ∃ r1 r2 r3 r4,
      O ax c1 = Except.ok r1 ∧ O ax c2 = Except.ok r2 ∧
      O ax c3 = Except.ok r3 ∧ O ax c4 = Except.ok r4 ∧
      l = [(n1, r1), (n2, r2), (n3, r3), (n4, r4)] := by
  cases h1 : O ax c1 <;> cases h2 : O ax c2 <;> cases h3 : O ax c3 <;>
    cases h4 : O ax c4 <;>
    simp [get_axis_values, h1, h2, h3, h4] at h
  exact ⟨_, _, _, _, rfl, rfl, rfl, rfl, h.symm⟩

/-- A failing transport call for an entry of the dictionary makes the
whole per-axis loop fail. -/
lemma get_axis_values_fail {O : Oracle} {ax : Nat}
    {dict : List (String × Char)} {p : String} {c : Char}
    (hmem : (p, c) ∈ dict) (hfail : O ax c = Except.error ()) :
    get_axis_values O ax dict = Except.error () := by
  induction dict with
  | nil => cases hmem
  | cons hd tl ih =>
    obtain ⟨ph, ch⟩ := hd
    rcases List.mem_cons.mp hmem with heq | hmem2
    · injection heq with h1 h2
      subst h1; subst h2
      simp [get_axis_values, hfail]
    · cases hh : O ax ch with
      | error e => cases e; simp [get_axis_values, hh]
      | ok r => simp [get_axis_values, hh, ih hmem2]

/-- A successful `get_values` consists of successful per-axis runs for
axes 1 and 2, in that order. -/
lemma get_values_ok {O : Oracle} {dict : List (String × Char)}
    {m : List (Nat × List (String × Resp))}
    (h : get_values O dict = Except.ok m) :
    ∃ a1 a2, get_axis_values O 1 dict = Except.ok a1 ∧
      get_axis_values O 2 dict = Except.ok a2 ∧ m = [(1, a1), (2, a2)] := by
  cases h1 : get_axis_values O 1 dict <;>
    cases h2 : get_axis_values O 2 dict <;>
    simp [get_values, h1, h2] at h
  exact ⟨_, _, rfl, rfl, h.symm⟩

/-- A failing transport call for either axis makes `get_values` fail. -/
lemma get_values_fail {O : Oracle} {dict : List (String × Char)}
    {ax : Nat} {p : String} {c : Char}
    (haxm : ax = 1 ∨ ax = 2) (hmem : (p, c) ∈ dict)
    (hfail : O ax c = Except.error ()) :
    get_values O dict = Except.error () := by
  rcases haxm with rfl | rfl
  · simp [get_values, get_axis_values_fail hmem hfail]
  · cases h1 : get_axis_values O 1 dict with
    | error e => cases e; simp [get_values, h1]
    | ok a1 => simp [get_values, h1, get_axis_values_fail hmem hfail]

/-- Successful post-processing of one axis of the current-value fetch
forces the shape of the result: integer `GotoTarget` and `Position`, a
kept `StepPeriod`, and a decoded `Status`. -/
lemma processAxis_current_shape {r1 r2 r3 r4 : Resp} {l : List (String × Val)}
    (h : processAxis [("GotoTarget", r1), ("Position", r2),
      ("StepPeriod", r3), ("Status", r4)] = Except.ok l) :
    ∃ g p sp st, l = [("GotoTarget", Val.num g), ("Position", Val.num p),
      ("StepPeriod", sp), ("Status", Val.status st)] := by
  cases r1 with
  | raw s1 => simp [processAxis, processEntry] at h
  | num n1 =>
    cases r2 with
    | raw s2 => simp [processAxis, processEntry] at h
    | num n2 =>
      cases r4 with
      | num n4 => simp [processAxis, processEntry] at h
      | raw s4 =>
        cases hd : decode_status s4 with
        | none => simp [processAxis, processEntry, hd] at h
        | some st =>
          refine ⟨n1 - 0x800000, n2 - 0x800000, respToVal r3, st, ?_⟩
          simp [processAxis, processEntry, hd] at h
          exact h.symm

/-- C2: for every 3-hex-digit input, `decode_status` parses the three
characters as independent 4-bit digits A, B, C (most significant first)
and returns `Tracking = bit0 A`, `CCW = bit1 A`, `FastSpeed = bit2 A`,
`Stopped = NOT bit0 B`, `Blocked = bit1 B`, `InitDone = NOT bit0 C`,
and `LevelSwitchOn = bit1 B` — the same bit as `Blocked`, so the two
always coincide. -/
theorem decode_status_bits (c0 c1 c2 : Char) (A B C : Nat)
    (h0 : hexDigitVal c0 = some A) (h1 : hexDigitVal c1 = some B)
    (h2 : hexDigitVal c2 = some C) :
    decode_status (String.mk [c0, c1, c2]) =
      some { Tracking := A.testBit 0
           , CCW := A.testBit 1
           , FastSpeed := A.testBit 2
           , Stopped := !(B.testBit 0)
           , Blocked := B.testBit 1
           , InitDone := !(C.testBit 0)
           , LevelSwitchOn := B.testBit 1 } := by
  simp [decode_status, h0, h1, h2, and_one_eq_testBit,
    and_two_shift_eq_testBit, and_four_shift_eq_testBit, nat_beq_eq_decide]

/-- C2 witness: the bit-level description evaluated at the concrete
input "701". -/
theorem decode_status_bits_witness :
    decode_status (String.mk ['7', '0', '1']) =
      some { Tracking := Nat.testBit 7 0
           , CCW := Nat.testBit 7 1
           , FastSpeed := Nat.testBit 7 2
           , Stopped := !(Nat.testBit 0 0)
           , Blocked := Nat.testBit 0 1
           , InitDone := !(Nat.testBit 1 0)
           , LevelSwitchOn := Nat.testBit 0 1 } :=
  decode_status_bits '7' '0' '1' 7 0 1 (by decide) (by decide) (by decide)

/-- C1 counterexample: the spec's test vector for "701" claims
`Stopped = false` and `InitDone = true`; the code returns
`Stopped = true` (B = 0, `Stopped = not (B & 1)`) and
`InitDone = false` (C = 1, `InitDone = not (C & 1)`). -/
theorem decode_status_701_refutes :
    decode_status "701" ≠
      some { Tracking := true, CCW := true, FastSpeed := true
           , Stopped := false, Blocked := false, InitDone := true
           , LevelSwitchOn := false } := by
  decide

/-- C1 (amended): the fixed test vectors as the code computes them:
"000" gives all flags false except `Stopped` and `InitDone`; "701"
gives `Tracking`, `CCW`, `FastSpeed` and `Stopped` true, with
`Blocked`, `InitDone` and `LevelSwitchOn` false. -/
theorem decode_status_vectors :
    decode_status "000" =
      some { Tracking := false, CCW := false, FastSpeed := false
           , Stopped := true, Blocked := false, InitDone := true
           , LevelSwitchOn := false } ∧
    decode_status "701" =
      some { Tracking := true, CCW := true, FastSpeed := true
           , Stopped := true, Blocked := false, InitDone := false
           , LevelSwitchOn := false } := by
  decide

/-- C4 counterexample: the claim says every input whose length is not 3
fails, but `decode_status` only reads the first three characters, so
the 4-character string "0000" decodes successfully. -/
theorem decode_status_len4_refutes : decode_status "0000" ≠ none := by
  decide

/-- C4 (amended): `decode_status` fails on every string shorter than 3
characters and on every string whose first three characters are not all
hex digits; on longer strings the characters beyond the first three are
ignored, so a string of length > 3 with a valid 3-hex-digit head
succeeds rather than failing. -/
theorem decode_status_malformed :
    (∀ s : String, s.length < 3 → decode_status s = none) ∧
    (∀ c0 c1 c2 : Char, ∀ rest : List Char,
      (hexDigitVal c0 = none ∨ hexDigitVal c1 = none ∨ hexDigitVal c2 = none) →
      decode_status (String.mk (c0 :: c1 :: c2 :: rest)) = none) ∧
    (∀ c0 c1 c2 : Char, ∀ rest : List Char,
      decode_status (String.mk (c0 :: c1 :: c2 :: rest)) =
        decode_status (String.mk [c0, c1, c2])) := by
  refine ⟨?_, ?_, ?_⟩
  · intro s hs
    obtain ⟨l⟩ := s
    match l, hs with
    | [], _ => rfl
    | [a], _ => rfl
    | [a, b], _ => rfl
    | a :: b :: c :: rest, hs =>
      simp [String.length] at hs
      omega
  · intro c0 c1 c2 rest h
    rcases h with h | h | h <;> simp [decode_status, h]
  · intro c0 c1 c2 rest
    rfl

/-- C4 witness: a 2-character string fails, a non-hex first character
fails, and a trailing character is ignored. -/
theorem decode_status_malformed_witness :
    decode_status (String.mk ['a', 'b']) = none ∧
    decode_status (String.mk ['g', '0', '0', '7']) = none ∧
    decode_status (String.mk ['0', '0', '0', '7']) =
      decode_status (String.mk ['0', '0', '0']) :=
  ⟨decode_status_malformed.1 (String.mk ['a', 'b']) (by decide),
   decode_status_malformed.2.1 'g' '0' '0' ['7'] (Or.inl (by decide)),
   decode_status_malformed.2.2 '0' '0' '0' ['7']⟩

/-- C3: the mode byte has bit 0 = tracking flag, bit 1 = the
mode-dependent speed bit (tracking: fast ↦ 0, slow ↦ 1; goto: fast ↦ 1,
slow ↦ 0), bit 7 = clockwise flag, and no other bit set; in particular
(tracking, slow, counter-clockwise) gives 0x03 and (goto, fast,
clockwise) gives 0x82, and the byte is transmitted as command 'G' with
2 hex digits. -/
theorem set_motion_mode_encoding :
    (∀ t f c : Bool,
      (set_motion_mode_value t f c).testBit 0 = t ∧
      (set_motion_mode_value t f c).testBit 1 = (if t then !f else f) ∧
      (set_motion_mode_value t f c).testBit 7 = c ∧
      set_motion_mode_value t f c &&& 0x7C = 0 ∧
      set_motion_mode_value t f c < 0x100) ∧
    set_motion_mode_value true false false = 0x03 ∧
    set_motion_mode_value false true true = 0x82 ∧
    (∀ ax : Nat, ∀ t f c : Bool,
      (set_motion_mode_sent ax t f c).cmd = 'G' ∧
      (set_motion_mode_sent ax t f c).ndigits = 2 ∧
      (set_motion_mode_sent ax t f c).value = set_motion_mode_value t f c) := by
  refine ⟨by decide, by decide, by decide, ?_⟩
  intro ax t f c
  exact ⟨rfl, rfl, rfl⟩

/-- C6: for every axis with positive `countsPerRevolution`, `T1preset`
produces the error outcome (not a numeric value) at
`degreesPerSecond = 0`, and more generally whenever the derived
`countsPerSecond` is zero. -/
theorem T1preset_zero_speed (P : Nat → AxisParams) (axis : Nat)
    (hpos : 0 < (P axis).countsPerRevolution) :
    T1preset P axis 0 = none ∧
    ∀ dps : ℚ, degrees2counts P axis dps = 0 → T1preset P axis dps = none := by
  constructor
  · simp [T1preset, degrees2counts]
  · intro dps hz
    simp [T1preset, hz]

/-- C6 witness: evaluated at constant parameters CPR = 9024000,
timer frequency 64935, on axis 1. -/
theorem T1preset_zero_speed_witness :
    T1preset (fun _ => ⟨9024000, 64935⟩) 1 0 = none :=
  (T1preset_zero_speed (fun _ => ⟨9024000, 64935⟩) 1 (by simp)).1

/-- C7: for every axis whose `countsPerRevolution` is positive,
`counts2degrees` inverts `degrees2counts` exactly over exact
arithmetic. -/
theorem counts2degrees_degrees2counts (P : Nat → AxisParams) (axis : Nat)
    (d : ℚ) (h : 0 < (P axis).countsPerRevolution) :
    counts2degrees P axis (degrees2counts P axis d) = d := by
  have hne : (P axis).countsPerRevolution ≠ 0 := ne_of_gt h
  unfold counts2degrees degrees2counts
  field_simp

/-- C7 witness: the round trip evaluated at CPR = 9024000 and
d = 361/7. -/
theorem counts2degrees_degrees2counts_witness :
    counts2degrees (fun _ => ⟨9024000, 64935⟩) 2
      (degrees2counts (fun _ => ⟨9024000, 64935⟩) 2 (361 / 7)) = 361 / 7 :=
  counts2degrees_degrees2counts (fun _ => ⟨9024000, 64935⟩) 2 (361 / 7)
    (by simp)

/-- C8: whenever any transport call of the current-value fetch fails,
`get_current_values` returns the empty dictionary and no failure
escapes. -/
theorem get_current_values_empty_on_failure (O : Oracle)
    (h : ∃ ax, (ax = 1 ∨ ax = 2) ∧
      ∃ pc ∈ parameterDictCurrent, O ax pc.2 = Except.error ()) :
    get_current_values O = Except.ok [] := by
  obtain ⟨ax, haxm, pc, hmem, hfail⟩ := h
  have hv := get_values_fail haxm hmem hfail
  simp [get_current_values, hv]

/-- C8 witness: with an always-failing transport, `get_current_values`
returns the empty dictionary. -/
theorem get_current_values_empty_on_failure_witness :
    get_current_values oracleFail = Except.ok [] :=
  get_current_values_empty_on_failure oracleFail
    ⟨1, Or.inl rfl, ("GotoTarget", 'h'), by decide, rfl⟩

/-- C9: `get_parameters` never returns a partial dictionary: every
successful result carries all four parameters for both axes, and any
failing transport call for either axis aborts the whole fetch with an
error. -/
theorem get_parameters_all_or_error (O : Oracle) :
    (∀ m, get_parameters O = Except.ok m →
      ∃ r1 r2 r3 r4 r5 r6 r7 r8,
        m = [(1, [("countsPerRevolution", r1), ("TimerInterruptFreq", r2),
                  ("StepPeriod", r3), ("MotorBoardVersion", r4)]),
             (2, [("countsPerRevolution", r5), ("TimerInterruptFreq", r6),
                  ("StepPeriod", r7), ("MotorBoardVersion", r8)])]) ∧
    (∀ ax, (ax = 1 ∨ ax = 2) → ∀ pc ∈ parameterDictMain,
      O ax pc.2 = Except.error () → get_parameters O = Except.error ()) := by
  constructor
  · intro m hm
    cases hv : get_values O parameterDictMain with
    | error e => simp [get_parameters, hv] at hm
    | ok params =>
      have hm2 : params = m := by simpa [get_parameters, hv] using hm
      subst hm2
      obtain ⟨a1, a2, h1, h2, rfl⟩ := get_values_ok hv
      simp only [parameterDictMain] at h1 h2
      obtain ⟨r1, r2, r3, r4, -, -, -, -, rfl⟩ := get_axis_values_four h1
      obtain ⟨r5, r6, r7, r8, -, -, -, -, rfl⟩ := get_axis_values_four h2
      exact ⟨r1, r2, r3, r4, r5, r6, r7, r8, rfl⟩
  · intro ax haxm pc hmem hfail
    have hv := get_values_fail haxm hmem hfail
    simp [get_parameters, hv]

/-- C9 witness: the full-shape conclusion on an all-answering
transport, and the error conclusion on an always-failing transport. -/
theorem get_parameters_all_or_error_witness :
    (∃ r1 r2 r3 r4 r5 r6 r7 r8,
      [(1, [("countsPerRevolution", Resp.num 42),
            ("TimerInterruptFreq", Resp.num 42),
            ("StepPeriod", Resp.num 42), ("MotorBoardVersion", Resp.num 42)]),
       (2, [("countsPerRevolution", Resp.num 42),
            ("TimerInterruptFreq", Resp.num 42),
            ("StepPeriod", Resp.num 42), ("MotorBoardVersion", Resp.num 42)])] =
        [(1, [("countsPerRevolution", r1), ("TimerInterruptFreq", r2),
              ("StepPeriod", r3), ("MotorBoardVersion", r4)]),
         (2, [("countsPerRevolution", r5), ("TimerInterruptFreq", r6),
              ("StepPeriod", r7), ("MotorBoardVersion", r8)])]) ∧
    get_parameters oracleFail = Except.error () :=
  ⟨(get_parameters_all_or_error oracleDemo).1 _ rfl,
   (get_parameters_all_or_error oracleFail).2 1 (Or.inl rfl)
     ("countsPerRevolution", 'a') (by decide) rfl⟩

/-- C10: every non-empty result of `get_current_values` is complete:
entries for axes 1 and 2, each with the keys `GotoTarget`, `Position`,
`StepPeriod` and `Status` in order, the positions as integers and the
status as a decoded `Status` structure (whose type carries exactly the
seven Boolean flags). -/
theorem get_current_values_shape (O : Oracle)
    (m : List (Nat × List (String × Val)))
    (h : get_current_values O = Except.ok m) (hne : m ≠ []) :
    ∃ g1 p1 sp1 st1 g2 p2 sp2 st2,
      m = [(1, [("GotoTarget", Val.num g1), ("Position", Val.num p1),
                ("StepPeriod", sp1), ("Status", Val.status st1)]),
           (2, [("GotoTarget", Val.num g2), ("Position", Val.num p2),
                ("StepPeriod", sp2), ("Status", Val.status st2)])] := by
  cases hv : get_values O parameterDictCurrent with
  | error e =>
    have hm : m = [] := by
      have h2 := h
      simp [get_current_values, hv] at h2
      exact h2
    exact absurd hm hne
  | ok params =>
    have hp : processAll params = Except.ok m := by
      simpa [get_current_values, hv] using h
    obtain ⟨a1, a2, h1, h2, rfl⟩ := get_values_ok hv
    simp only [parameterDictCurrent] at h1 h2
    obtain ⟨r1, r2, r3, r4, -, -, -, -, rfl⟩ := get_axis_values_four h1
    obtain ⟨r5, r6, r7, r8, -, -, -, -, rfl⟩ := get_axis_values_four h2
    cases hA1 : processAxis [("GotoTarget", r1), ("Position", r2),
        ("StepPeriod", r3), ("Status", r4)] with
    | error u => simp [processAll, hA1] at hp
    | ok l1 =>
      cases hA2 : processAxis [("GotoTarget", r5), ("Position", r6),
          ("StepPeriod", r7), ("Status", r8)] with
      | error u => simp [processAll, hA1, hA2] at hp
      | ok l2 =>
        have hm : [(1, l1), (2, l2)] = m := by
          simpa [processAll, hA1, hA2] using hp
        obtain ⟨g1, p1, sp1, st1, rfl⟩ := processAxis_current_shape hA1
        obtain ⟨g2, p2, sp2, st2, rfl⟩ := processAxis_current_shape hA2
        exact ⟨g1, p1, sp1, st1, g2, p2, sp2, st2, hm.symm⟩

/-- C10 witness: the completeness conclusion evaluated on an
all-answering transport. -/
theorem get_current_values_shape_witness :
    ∃ g1 p1 sp1 st1 g2 p2 sp2 st2,
      [(1, [("GotoTarget", Val.num 0x10), ("Position", Val.num 0x01),
            ("StepPeriod", Val.num 42), ("Status", Val.status statusZeros)]),
       (2, [("GotoTarget", Val.num 0x10), ("Position", Val.num 0x01),
            ("StepPeriod", Val.num 42), ("Status", Val.status statusZeros)])] =
        [(1, [("GotoTarget", Val.num g1), ("Position", Val.num p1),
              ("StepPeriod", sp1), ("Status", Val.status st1)]),
         (2, [("GotoTarget", Val.num g2), ("Position", Val.num p2),
              ("StepPeriod", sp2), ("Status", Val.status st2)])] :=
  get_current_values_shape oracleDemo _ rfl (by simp)

/-- C5: the 0x800000 bias is removed or added exactly once at every
position-bearing crossing of the interface: `get_axis_pos` returns the
raw reply minus 0x800000 (so reading back a value stored by
`set_goto_target` returns the original target), `set_goto_target`
transmits `target + 0x800000` under command 'S', and
`get_current_values` subtracts 0x800000 exactly once from `GotoTarget`
and `Position` of both axes. -/
theorem position_offset_once (O : Oracle) :
    (∀ ax : Nat, ∀ n : Int, O ax 'j' = Except.ok (Resp.num n) →
      get_axis_pos O ax = Except.ok (n - 0x800000)) ∧
    (∀ ax : Nat, ∀ t : Int, set_goto_target_sent ax t = ('S', ax, t + 0x800000)) ∧
    (∀ ax : Nat, ∀ t : Int,
      O ax 'j' = Except.ok (Resp.num (set_goto_target_sent ax t).2.2) →
      get_axis_pos O ax = Except.ok t) ∧
    (∀ g1 p1 : Int, ∀ sp1 : Resp, ∀ s1 : String, ∀ st1 : Status,
     ∀ g2 p2 : Int, ∀ sp2 : Resp, ∀ s2 : String, ∀ st2 : Status,
      O 1 'h' = Except.ok (Resp.num g1) →
      O 1 'j' = Except.ok (Resp.num p1) →
      O 1 'i' = Except.ok sp1 →
      O 1 'f' = Except.ok (Resp.raw s1) → decode_status s1 = some st1 →
      O 2 'h' = Except.ok (Resp.num g2) →
      O 2 'j' = Except.ok (Resp.num p2) →
      O 2 'i' = Except.ok sp2 →
      O 2 'f' = Except.ok (Resp.raw s2) → decode_status s2 = some st2 →
      get_current_values O = Except.ok
        [(1, [("GotoTarget", Val.num (g1 - 0x800000)),
              ("Position", Val.num (p1 - 0x800000)),
              ("StepPeriod", respToVal sp1), ("Status", Val.status st1)]),
         (2, [("GotoTarget", Val.num (g2 - 0x800000)),
              ("Position", Val.num (p2 - 0x800000)),
              ("StepPeriod", respToVal sp2), ("Status", Val.status st2)])]) := by
  refine ⟨?_, ?_, ?_, ?_⟩
  · intro ax n hn
    simp [get_axis_pos, hn]
  · intro ax t
    rfl
  · intro ax t ht
    simp [set_goto_target_sent] at ht
    simp [get_axis_pos, ht]
  · intro g1 p1 sp1 s1 st1 g2 p2 sp2 s2 st2 h1h h1j h1i h1f hd1 h2h h2j h2i h2f hd2
    simp [get_current_values, get_values, get_axis_values, parameterDictCurrent,
      h1h, h1j, h1i, h1f, h2h, h2j, h2i, h2f,
      processAll, processAxis, processEntry, hd1, hd2]

/-- C5 witness: evaluated on the all-answering transport, reading a
position stored with the wire bias and the two current values. -/
theorem position_offset_once_witness :
    get_axis_pos oracleDemo 1 = Except.ok 0x01 ∧
    get_current_values oracleDemo = Except.ok
      [(1, [("GotoTarget", Val.num 0x10), ("Position", Val.num 0x01),
            ("StepPeriod", Val.num 42), ("Status", Val.status statusZeros)]),
       (2, [("GotoTarget", Val.num 0x10), ("Position", Val.num 0x01),
            ("StepPeriod", Val.num 42), ("Status", Val.status statusZeros)])] :=
  ⟨(position_offset_once oracleDemo).2.2.1 1 0x01 rfl,
   (position_offset_once oracleDemo).2.2.2 0x800010 0x800001 (Resp.num 42)
     "000" statusZeros 0x800010 0x800001 (Resp.num 42) "000" statusZeros
     rfl rfl rfl rfl rfl rfl rfl rfl rfl rfl⟩

end Synscan
